import Mathlib

/-!
Verification of the feature-engineering pipeline of the Airbnb NYC listings
repository (`feature_engineering.ipynb`).

The notebook loads a cleaned CSV into a pandas DataFrame and derives five new
columns, each a per-row computation:

* `has_review       = 1 if number_of_reviews > 0 else 0`
* `price_per_night  = price / minimum_nights if minimum_nights > 0 else nan`,
  then `±inf` is replaced by `nan`
* `active_listing   = 1 if availability_365 > 0 else 0`
* `seasonal_availability = categorize_availability(availability_365)`
* `is_entire_home   = int(room_type == 'Entire home/apt')`

We model a DataFrame as an ordered association list of named columns, a cell as
an idealized Python scalar (integers and finite floats as exact numbers, plus
`nan`, `+inf`, `-inf`, and strings), and each lambda of the notebook as a
function on cells.  Operations that would raise a Python exception (comparing a
string with a number, a missing column) are modelled as `none`, which aborts
the whole pipeline, matching the notebook's fatal-failure behaviour on
malformed input.
-/

namespace AirbnbFeatures

/-- An idealized scalar held in a DataFrame cell: exact integers, exact finite
floats (as rationals), the special float values `nan`, `+inf`, `-inf`, and
strings. -/
inductive Cell where
  | int (n : ℤ)
  | rat (q : ℚ)
  | str (s : String)
  | nan
  | inf
  | ninf
deriving DecidableEq, Repr

/-- The Python comparison `x > 0` on a cell.  `nan > 0` is `False`,
`inf > 0` is `True`, `-inf > 0` is `False`; comparing a string with `0`
raises `TypeError`, modelled as `none`. -/
def cellGtZero : Cell → Option Bool
  | .int n => some (decide (0 < n))
  | .rat q => some (decide (0 < q))
  | .nan => some false
  | .inf => some true
  | .ninf => some false
  | .str _ => none

/-- Python division `p / m` as it is evaluated in the notebook, i.e. under the
guard `m > 0` (so `m` is a positive integer, a positive float, or `+inf`).
A string operand raises `TypeError` (`none`); `nan` propagates; a finite value
divided by an infinity is `0`; an infinity divided by an infinity is `nan`;
an infinity divided by a positive finite value keeps its sign. -/
def divCell : Cell → Cell → Option Cell
  | .str _, _ => none
  | _, .str _ => none
  | .nan, _ => some .nan
  | _, .nan => some .nan
  | .int a, .int b => some (.rat ((a : ℚ) / (b : ℚ)))
  | .int a, .rat b => some (.rat ((a : ℚ) / b))
  | .rat a, .int b => some (.rat (a / (b : ℚ)))
  | .rat a, .rat b => some (.rat (a / b))
  | .int _, .inf => some (.rat 0)
  | .rat _, .inf => some (.rat 0)
  | .int _, .ninf => some (.rat 0)
  | .rat _, .ninf => some (.rat 0)
  | .inf, .inf => some .nan
  | .inf, .ninf => some .nan
  | .ninf, .inf => some .nan
  | .ninf, .ninf => some .nan
  | .inf, .int _ => some .inf
  | .inf, .rat _ => some .inf
  | .ninf, .int _ => some .ninf
  | .ninf, .rat _ => some .ninf

/-- The notebook's lambda `lambda x: 1 if x > 0 else 0` applied to a cell of
`number_of_reviews` to build `has_review`. -/
def hasReviewCell (x : Cell) : Option Cell := do
  let pos ← cellGtZero x
  some (.int (if pos then 1 else 0))

/-- The notebook's row lambda
`lambda row: row['price'] / row['minimum_nights'] if row['minimum_nights'] > 0 else np.nan`
applied to the `price` and `minimum_nights` cells of one row. -/
def pricePerNightCell (p m : Cell) : Option Cell := do
  let pos ← cellGtZero m
  if pos then divCell p m else some .nan

/-- The notebook's replacement step
`df['price_per_night'].replace([np.inf, -np.inf], np.nan)` on one cell. -/
def replaceInfCell : Cell → Cell
  | .inf => .nan
  | .ninf => .nan
  | c => c

/-- The notebook's lambda `lambda x: 1 if x > 0 else 0` applied to a cell of
`availability_365` to build `active_listing`. -/
def activeListingCell (x : Cell) : Option Cell := do
  let pos ← cellGtZero x
  some (.int (if pos then 1 else 0))

/-- The notebook's function

```python
def categorize_availability(x):
    if x == 0:
        return 'Not Available'
    elif x <= 120:
        return 'Low'
    elif x <= 240:
        return 'Medium'
    else:
        return 'High'
```

on integer inputs. -/
def categorize_availability (x : ℤ) : String :=
  if x = 0 then "Not Available"
  else if x ≤ 120 then "Low"
  else if x ≤ 240 then "Medium"
  else "High"

/-- The function `categorize_availability` applied to an arbitrary cell,
following Python semantics: `nan == 0` and the `nan ≤ _` comparisons are `False` (so `nan`
falls through to `'High'`), `-inf ≤ 120` is `True`, and comparing a string
with a number in `x <= 120` raises `TypeError` (`none`; `'s' == 0` itself is
just `False`). -/
def categorizeAvailabilityCell : Cell → Option Cell
  | .int n => some (.str (categorize_availability n))
  | .rat q =>
      some (.str (if q = 0 then "Not Available"
        else if q ≤ 120 then "Low"
        else if q ≤ 240 then "Medium"
        else "High"))
  | .nan => some (.str "High")
  | .inf => some (.str "High")
  | .ninf => some (.str "Low")
  | .str _ => none

/-- The notebook's `(df['room_type'] == 'Entire home/apt').astype(int)` on one
cell: Python `==` between unrelated types is `False`, never an error. -/
def isEntireHomeCell (c : Cell) : Cell :=
  .int (if c = .str "Entire home/apt" then 1 else 0)

/-- A pandas DataFrame, modelled as an ordered list of named columns (pandas
itself is a dictionary of columns; insertion order is the column order). -/
structure DataFrame where
  cols : List (String × List Cell)
deriving DecidableEq, Repr

/-- Column lookup `df[name]`: the first column with the given name, `none`
(a fatal `KeyError`) when no such column exists. -/
def getCol (df : DataFrame) (name : String) : Option (List Cell) :=
  (df.cols.find? (fun p => p.1 = name)).map Prod.snd

/-- Whether the DataFrame has a column with the given name. -/
def hasCol (df : DataFrame) (name : String) : Bool :=
  df.cols.any (fun p => p.1 = name)

/-- Column assignment `df[name] = c`: pandas overwrites the column in place
when the name exists and appends a new column at the end otherwise. -/
def setCol (df : DataFrame) (name : String) (c : List Cell) : DataFrame :=
  if hasCol df name then
    ⟨df.cols.map (fun p => if p.1 = name then (name, c) else p)⟩
  else
    ⟨df.cols ++ [(name, c)]⟩

/-- The names of the columns of a DataFrame, in order. -/
def colNames (df : DataFrame) : List String :=
  df.cols.map Prod.fst

/-- The cell of column `name` at row index `i`, when both exist. -/
def cellAt (df : DataFrame) (name : String) (i : ℕ) : Option Cell :=
  (getCol df name).bind (fun l => l[i]?)

/-- The five derived column names, in the order the notebook appends them. -/
def derivedNames : List String :=
  ["has_review", "price_per_night", "active_listing",
   "seasonal_availability", "is_entire_home"]

/-- The input column names the derivations read. -/
def inputNames : List String :=
  ["number_of_reviews", "price", "minimum_nights",
   "availability_365", "room_type"]

/-- The whole notebook pipeline between `read_csv` and `to_csv`: the five
column assignments, in order.  `none` models an uncaught Python exception
(missing column or a type error inside a lambda). -/
def pipeline (df : DataFrame) : Option DataFrame := do
  let nr ← getCol df "number_of_reviews"
  let hr ← nr.mapM hasReviewCell
  let df1 := setCol df "has_review" hr
  let pr ← getCol df1 "price"
  let mn ← getCol df1 "minimum_nights"
  let ppn ← (List.zip pr mn).mapM (fun pm => pricePerNightCell pm.1 pm.2)
  let df2 := setCol df1 "price_per_night" ppn
  let ppn2 ← getCol df2 "price_per_night"
  let df3 := setCol df2 "price_per_night" (ppn2.map replaceInfCell)
  let av ← getCol df3 "availability_365"
  let al ← av.mapM activeListingCell
  let df4 := setCol df3 "active_listing" al
  let av2 ← getCol df4 "availability_365"
  let sa ← av2.mapM categorizeAvailabilityCell
  let df5 := setCol df4 "seasonal_availability" sa
  let rt ← getCol df5 "room_type"
  let df6 := setCol df5 "is_entire_home" (rt.map isEntireHomeCell)
  some df6

/-- The derived column names are absent from the input DataFrame (they are
fresh, as in the cleaned CSV the notebook reads). -/
def freshDerived (df : DataFrame) : Prop :=
  ∀ d ∈ derivedNames, hasCol df d = false

instance (df : DataFrame) : Decidable (freshDerived df) := by
  unfold freshDerived
  infer_instance

/-- A one-row example DataFrame with the five input columns. -/
def exampleDf : DataFrame :=
  ⟨[("number_of_reviews", [.int 3]), ("price", [.int 100]),
    ("minimum_nights", [.int 0]), ("availability_365", [.int 100]),
    ("room_type", [.str "Entire home/apt"])]⟩

/-- The result of the pipeline on `exampleDf`. -/
def exampleOut : DataFrame :=
  ⟨[("number_of_reviews", [.int 3]), ("price", [.int 100]),
    ("minimum_nights", [.int 0]), ("availability_365", [.int 100]),
    ("room_type", [.str "Entire home/apt"]),
    ("has_review", [.int 1]), ("price_per_night", [.nan]),
    ("active_listing", [.int 1]), ("seasonal_availability", [.str "Low"]),
    ("is_entire_home", [.int 1])]⟩

/-- The pipeline on the example table evaluates as expected. -/
theorem pipeline_exampleDf : pipeline exampleDf = some exampleOut := by decide

/-! ### Association-list lemmas for the DataFrame operations -/

theorem find?_map_overwrite (l : List (String × List Cell)) (n : String) (c : List Cell)
    (h : l.any (fun p => p.1 = n) = true) :
    (l.map (fun p => if p.1 = n then (n, c) else p)).find? (fun p => p.1 = n) = some (n, c) := by
  induction l with
  | nil => simp at h
  | cons a l ih =>
    by_cases ha : a.1 = n
    · simp [List.find?_cons, ha]
    · simp only [List.any_cons, Bool.or_eq_true, decide_eq_true_eq] at h
      rcases h with h | h


      · exact absurd h ha
      · simp [List.find?_cons, ha, ih h]

theorem find?_map_other (l : List (String × List Cell)) (n m : String) (c : List Cell)
    (hnm : n ≠ m) :
    (l.map (fun p => if p.1 = n then (n, c) else p)).find? (fun p => p.1 = m)
      = l.find? (fun p => p.1 = m) := by
  induction l with
  | nil => simp
  | cons a l ih =>
    by_cases ha : a.1 = n
    · have ham : ¬(a.1 = m) := fun hm => hnm (ha ▸ hm)
      simp [List.find?_cons, ha, hnm, ham, ih]
    · by_cases ham : a.1 = m
      · simp [List.find?_cons, ha, ham, Ne.symm hnm]
      · simp [List.find?_cons, ha, ham, ih]

theorem map_overwrite_of_not_any (l : List (String × List Cell)) (n : String) (c : List Cell)
    (h : l.any (fun p => p.1 = n) = false) :
    l.map (fun p => if p.1 = n then (n, c) else p) = l := by
  have hall : ∀ p ∈ l, ¬(p.1 = n) := by
    intro p hp
    intro hpn
    have : l.any (fun p => p.1 = n) = true := List.any_eq_true.mpr ⟨p, hp, by simp [hpn]⟩
    rw [this] at h
    exact Bool.noConfusion h
  calc l.map (fun p => if p.1 = n then (n, c) else p)
      = l.map id := List.map_congr_left (fun p hp => by simp [hall p hp])
    _ = l := List.map_id l

theorem find?_eq_none_of_not_hasCol (df : DataFrame) (n : String)
    (h : hasCol df n = false) :
    df.cols.find? (fun p => p.1 = n) = none := by
  rw [List.find?_eq_none]
  intro p hp
  simp only [decide_eq_true_eq]
  intro hpn
  have : hasCol df n = true := by
    unfold hasCol
    exact List.any_eq_true.mpr ⟨p, hp, by simp [hpn]⟩
  rw [this] at h
  exact Bool.noConfusion h

theorem getCol_setCol_self (df : DataFrame) (n : String) (c : List Cell) :
    getCol (setCol df n c) n = some c := by
  unfold getCol setCol
  cases hb : hasCol df n with
  | true =>
    have h : df.cols.any (fun p => p.1 = n) = true := hb
    simp [find?_map_overwrite df.cols n c h]
  | false =>
    simp only [Bool.false_eq_true, if_neg, reduceIte]
    rw [List.find?_append, find?_eq_none_of_not_hasCol df n hb]
    simp [List.find?_cons]

theorem getCol_setCol_ne (df : DataFrame) (n m : String) (c : List Cell) (h : n ≠ m) :
    getCol (setCol df n c) m = getCol df m := by
  unfold getCol setCol
  cases hb : hasCol df n with
  | true => simp [find?_map_other df.cols n m c h]
  | false =>
    simp only [Bool.false_eq_true, reduceIte]
    rw [List.find?_append]
    have : ([(n, c)].find? (fun p => p.1 = m)) = none := by
      simp [List.find?_cons, h]
    rw [this, Option.or_none]

theorem setCol_cols_of_not_hasCol (df : DataFrame) (n : String) (c : List Cell)
    (h : hasCol df n = false) :
    (setCol df n c).cols = df.cols ++ [(n, c)] := by
  simp [setCol, h]

theorem DataFrame.cols_inj (a b : DataFrame) (h : a.cols = b.cols) : a = b := by
  cases a
  cases b
  cases h
  rfl

theorem setCol_setCol_fresh (df : DataFrame) (n : String) (c c' : List Cell)
    (h : hasCol df n = false) :
    setCol (setCol df n c) n c' = setCol df n c' := by
  have h1 : (setCol df n c).cols = df.cols ++ [(n, c)] := setCol_cols_of_not_hasCol df n c h
  have h2 : hasCol (setCol df n c) n = true := by
    unfold hasCol
    rw [h1, List.any_append]
    simp
  apply DataFrame.cols_inj
  set X := setCol df n c with hX
  show (setCol X n c').cols = (setCol df n c').cols
  unfold setCol
  rw [if_pos h2, if_neg (by simp [h]), h1, List.map_append,
    map_overwrite_of_not_any df.cols n c' h]
  simp

theorem hasCol_iff_mem (df : DataFrame) (n : String) :
    hasCol df n = true ↔ n ∈ colNames df := by
  simp only [hasCol, colNames, List.any_eq_true, decide_eq_true_eq, List.mem_map]

theorem hasCol_setCol_false (df : DataFrame) (n : String) (c : List Cell) (m : String)
    (h1 : hasCol df m = false) (h2 : m ≠ n) :
    hasCol (setCol df n c) m = false := by
  cases hb : hasCol (setCol df n c) m with
  | false => rfl
  | true =>
    exfalso
    have hm := (hasCol_iff_mem _ m).mp hb
    unfold setCol at hm
    cases hc : hasCol df n with
    | true =>
      rw [if_pos hc] at hm
      simp only [colNames, List.map_map, List.mem_map] at hm
      obtain ⟨p, hp, hpm⟩ := hm
      by_cases hpn : p.1 = n
      · simp [hpn] at hpm
        exact h2 hpm.symm
      · simp [hpn] at hpm
        have hmem : m ∈ colNames df := by
          unfold colNames
          exact List.mem_map.mpr ⟨p, hp, hpm⟩
        rw [(hasCol_iff_mem df m).mpr hmem] at h1
        exact Bool.noConfusion h1
    | false =>
      rw [if_neg (by simp [hc])] at hm
      simp only [colNames, List.map_append, List.mem_append, List.map_cons, List.map_nil,
        List.mem_singleton] at hm
      rcases hm with hm | hm
      · rw [(hasCol_iff_mem df m).mpr hm] at h1
        exact Bool.noConfusion h1
      · exact h2 hm

theorem getCol_mem (df : DataFrame) (n : String) (l : List Cell)
    (h : getCol df n = some l) : ∃ p ∈ df.cols, p.1 = n ∧ p.2 = l := by
  unfold getCol at h
  cases hf : df.cols.find? (fun p => p.1 = n) with
  | none =>
    rw [hf] at h
    exact Option.noConfusion h
  | some p =>
    rw [hf] at h
    simp only [Option.map_some', Option.some.injEq] at h
    have hp := List.find?_some hf
    simp only [decide_eq_true_eq] at hp
    exact ⟨p, List.mem_of_find?_eq_some hf, hp, h⟩

/-! ### `mapM` and `zip` index lemmas (over the `Option` monad) -/

theorem mapM_option_length {α β : Type} (f : α → Option β) (l : List α) (l' : List β)
    (h : l.mapM f = some l') : l'.length = l.length := by
  induction l generalizing l' with
  | nil =>
    rw [List.mapM_nil] at h
    simp only [Option.pure_def, Option.some.injEq] at h
    simp [← h]
  | cons a l ih =>
    rw [List.mapM_cons] at h
    simp only [Option.bind_eq_bind, Option.bind_eq_some, Option.pure_def,
      Option.some.injEq] at h
    obtain ⟨b, hb, l'', hl'', rfl⟩ := h
    simp [ih l'' hl'']

theorem mapM_option_getElem? {α β : Type} (f : α → Option β) (l : List α) (l' : List β)
    (h : l.mapM f = some l') (i : ℕ) : l'[i]? = (l[i]?).bind f := by
  induction l generalizing l' i with
  | nil =>
    rw [List.mapM_nil] at h
    simp only [Option.pure_def, Option.some.injEq] at h
    simp [← h]
  | cons a l ih =>
    rw [List.mapM_cons] at h
    simp only [Option.bind_eq_bind, Option.bind_eq_some, Option.pure_def,
      Option.some.injEq] at h
    obtain ⟨b, hb, l'', hl'', rfl⟩ := h
    cases i with
    | zero => simp [hb]
    | succ i => simp [ih l'' hl'' i]

theorem zip_getElem? {α β : Type} (l₁ : List α) (l₂ : List β) (i : ℕ) :
    (l₁.zip l₂)[i]? = (l₁[i]?).bind (fun x => (l₂[i]?).map (fun y => (x, y))) := by
  induction l₁ generalizing l₂ i with
  | nil => simp
  | cons a l ih =>
    cases l₂ with
    | nil =>
      rw [List.zip_nil_right]
      cases hi : (a :: l)[i]? <;> simp
    | cons b l₂ =>
      cases i with
      | zero => simp [List.zip_cons_cons]
      | succ i => simp [List.zip_cons_cons, ih l₂ i]

/-! ### Structure of a successful pipeline run -/

theorem pipeline_eq (df out : DataFrame) (hf : freshDerived df) (h : pipeline df = some out) :
    ∃ nr pr mn av rt hr ppn al sa,
      getCol df "number_of_reviews" = some nr ∧
      getCol df "price" = some pr ∧
      getCol df "minimum_nights" = some mn ∧
      getCol df "availability_365" = some av ∧
      getCol df "room_type" = some rt ∧
      nr.mapM hasReviewCell = some hr ∧
      (List.zip pr mn).mapM (fun pm => pricePerNightCell pm.1 pm.2) = some ppn ∧
      av.mapM activeListingCell = some al ∧
      av.mapM categorizeAvailabilityCell = some sa ∧
      out.cols = df.cols ++
        [("has_review", hr), ("price_per_night", ppn.map replaceInfCell),
         ("active_listing", al), ("seasonal_availability", sa),
         ("is_entire_home", rt.map isEntireHomeCell)] := by
  have f1 : hasCol df "has_review" = false := hf _ (by simp [derivedNames])
  have f2 : hasCol df "price_per_night" = false := hf _ (by simp [derivedNames])
  have f3 : hasCol df "active_listing" = false := hf _ (by simp [derivedNames])
  have f4 : hasCol df "seasonal_availability" = false := hf _ (by simp [derivedNames])
  have f5 : hasCol df "is_entire_home" = false := hf _ (by simp [derivedNames])
  unfold pipeline at h
  simp only [Option.bind_eq_bind, Option.bind_eq_some, Option.some.injEq] at h
  obtain ⟨nr, hnr, hr, hhr, pr, hpr, mn, hmn, ppn, hppn, ppn2, hppn2, av, hav, al, hal,
    av2, hav2, sa, hsa, rt, hrt, hout⟩ := h
  rw [getCol_setCol_ne _ "has_review" "price" _ (by decide)] at hpr
  rw [getCol_setCol_ne _ "has_review" "minimum_nights" _ (by decide)] at hmn
  rw [getCol_setCol_self] at hppn2
  obtain rfl : ppn = ppn2 := Option.some.inj hppn2
  rw [getCol_setCol_ne _ "price_per_night" "availability_365" _ (by decide),
    getCol_setCol_ne _ "price_per_night" "availability_365" _ (by decide),
    getCol_setCol_ne _ "has_review" "availability_365" _ (by decide)] at hav
  rw [getCol_setCol_ne _ "active_listing" "availability_365" _ (by decide),
    getCol_setCol_ne _ "price_per_night" "availability_365" _ (by decide),
    getCol_setCol_ne _ "price_per_night" "availability_365" _ (by decide),
    getCol_setCol_ne _ "has_review" "availability_365" _ (by decide)] at hav2
  rw [hav] at hav2
  obtain rfl : av = av2 := Option.some.inj hav2
  rw [getCol_setCol_ne _ "seasonal_availability" "room_type" _ (by decide),
    getCol_setCol_ne _ "active_listing" "room_type" _ (by decide),
    getCol_setCol_ne _ "price_per_night" "room_type" _ (by decide),
    getCol_setCol_ne _ "price_per_night" "room_type" _ (by decide),
    getCol_setCol_ne _ "has_review" "room_type" _ (by decide)] at hrt
  subst hout
  refine ⟨nr, pr, mn, av, rt, hr, ppn, al, sa, hnr, hpr, hmn, hav, hrt, hhr, hppn, hal,
    hsa, ?_⟩
  have hc1 : hasCol (setCol df "has_review" hr) "price_per_night" = false :=
    hasCol_setCol_false df "has_review" hr _ f2 (by decide)
  rw [setCol_setCol_fresh _ "price_per_night" ppn _ hc1]
  have hc2 : hasCol (setCol (setCol df "has_review" hr) "price_per_night"
      (ppn.map replaceInfCell)) "active_listing" = false :=
    hasCol_setCol_false _ "price_per_night" _ _
      (hasCol_setCol_false df "has_review" hr _ f3 (by decide)) (by decide)
  have hc3 : hasCol (setCol (setCol (setCol df "has_review" hr) "price_per_night"
      (ppn.map replaceInfCell)) "active_listing" al) "seasonal_availability" = false :=
    hasCol_setCol_false _ "active_listing" _ _
      (hasCol_setCol_false _ "price_per_night" _ _
        (hasCol_setCol_false df "has_review" hr _ f4 (by decide)) (by decide)) (by decide)
  have hc4 : hasCol (setCol (setCol (setCol (setCol df "has_review" hr) "price_per_night"
      (ppn.map replaceInfCell)) "active_listing" al) "seasonal_availability" sa)
      "is_entire_home" = false :=
    hasCol_setCol_false _ "seasonal_availability" _ _
      (hasCol_setCol_false _ "active_listing" _ _
        (hasCol_setCol_false _ "price_per_night" _ _
          (hasCol_setCol_false df "has_review" hr _ f5 (by decide)) (by decide))
        (by decide)) (by decide)
  rw [setCol_cols_of_not_hasCol _ _ _ hc4, setCol_cols_of_not_hasCol _ _ _ hc3,
    setCol_cols_of_not_hasCol _ _ _ hc2, setCol_cols_of_not_hasCol _ _ _ hc1,
    setCol_cols_of_not_hasCol _ _ _ f1]
  simp

theorem getCol_of_cols_append (out df : DataFrame) (l : List (String × List Cell))
    (hout : out.cols = df.cols ++ l) (n : String) (h : hasCol df n = false) :
    getCol out n = getCol ⟨l⟩ n := by
  unfold getCol
  rw [hout, List.find?_append, find?_eq_none_of_not_hasCol df n h]
  rfl

theorem getCol_of_cols_append_orig (out df : DataFrame) (l : List (String × List Cell))
    (hout : out.cols = df.cols ++ l) (n : String) (h : hasCol df n = true) :
    getCol out n = getCol df n := by
  unfold getCol
  rw [hout, List.find?_append]
  cases hfind : df.cols.find? (fun p => p.1 = n) with
  | none =>
    exfalso
    have : (df.cols.find? (fun p => p.1 = n)).isSome = true :=
      List.find?_isSome.mpr (by
        obtain ⟨p, hp, hpn⟩ := List.any_eq_true.mp h
        exact ⟨p, hp, hpn⟩)
    rw [hfind] at this
    exact Bool.noConfusion this
  | some p => rfl

/-- Claim C3: for every well-formed input table (rectangular, derived column
names fresh), a successful pipeline run preserves the row count (every output
column has the input row count), increases the column count by exactly 5,
leaves the original columns unchanged, and appends the derived columns after
them. -/
theorem pipeline_frame_effect (df out : DataFrame) (k : ℕ)
    (hf : freshDerived df)
    (hrect : ∀ p ∈ df.cols, p.2.length = k)
    (h : pipeline df = some out) :
    out.cols.length = df.cols.length + 5 ∧
    colNames out = colNames df ++ derivedNames ∧
    (∀ name, hasCol df name = true → getCol out name = getCol df name) ∧
    (∀ p ∈ out.cols, p.2.length = k) := by
  obtain ⟨nr, pr, mn, av, rt, hr, ppn, al, sa, hnr, hpr, hmn, hav, hrt, hhr, hppn, hal,
    hsa, hcols⟩ := pipeline_eq df out hf h
  have hnrlen : nr.length = k := by
    obtain ⟨p, hp, _, hpl⟩ := getCol_mem df _ nr hnr
    rw [← hpl]
    exact hrect p hp
  have hprlen : pr.length = k := by
    obtain ⟨p, hp, _, hpl⟩ := getCol_mem df _ pr hpr
    rw [← hpl]
    exact hrect p hp
  have hmnlen : mn.length = k := by
    obtain ⟨p, hp, _, hpl⟩ := getCol_mem df _ mn hmn
    rw [← hpl]
    exact hrect p hp
  have havlen : av.length = k := by
    obtain ⟨p, hp, _, hpl⟩ := getCol_mem df _ av hav
    rw [← hpl]
    exact hrect p hp
  have hrtlen : rt.length = k := by
    obtain ⟨p, hp, _, hpl⟩ := getCol_mem df _ rt hrt
    rw [← hpl]
    exact hrect p hp
  refine ⟨?_, ?_, ?_, ?_⟩
  · rw [hcols, List.length_append]
    rfl
  · simp [colNames, hcols, derivedNames]
  · intro name hname
    exact getCol_of_cols_append_orig out df _ hcols name hname
  · intro p hp
    rw [hcols] at hp
    rcases List.mem_append.mp hp with hp | hp
    · exact hrect p hp
    · have hhrlen : hr.length = k := by
        rw [mapM_option_length hasReviewCell nr hr hhr, hnrlen]
      have hppnlen : ppn.length = k := by
        rw [mapM_option_length _ _ ppn hppn, List.length_zip, hprlen, hmnlen]
        exact Nat.min_self k
      have hallen : al.length = k := by
        rw [mapM_option_length activeListingCell av al hal, havlen]
      have hsalen : sa.length = k := by
        rw [mapM_option_length categorizeAvailabilityCell av sa hsa, havlen]
      simp only [List.mem_cons, List.not_mem_nil, or_false] at hp
      rcases hp with rfl | rfl | rfl | rfl | rfl
      · exact hhrlen
      · simpa using hppnlen
      · exact hallen
      · exact hsalen
      · simpa using hrtlen

/-- Claim C3 witness: the frame effect on the concrete one-row example table. -/
theorem pipeline_frame_effect_witness :
    exampleOut.cols.length = exampleDf.cols.length + 5 ∧
    colNames exampleOut = colNames exampleDf ++ derivedNames ∧
    (∀ name, hasCol exampleDf name = true → getCol exampleOut name = getCol exampleDf name) ∧
    (∀ p ∈ exampleOut.cols, p.2.length = 1) :=
  pipeline_frame_effect exampleDf exampleOut 1 (by decide) (by decide) (by decide)

/-- Claim C4 counterexample: on a concrete input table the pipeline adds five
derived columns, not six. -/
theorem pipeline_not_six_columns :
    pipeline exampleDf = some exampleOut ∧
    exampleOut.cols.length = exampleDf.cols.length + 5 ∧
    ¬ exampleOut.cols.length = exampleDf.cols.length + 6 :=
  ⟨by decide, by decide, by decide⟩

/-- Claim C4 (amended): the pipeline computes five derived columns over the
table, one per derivation stage. -/
theorem pipeline_five_derived_columns (df out : DataFrame)
    (hf : freshDerived df) (h : pipeline df = some out) :
    colNames out = colNames df ++ derivedNames ∧ derivedNames.length = 5 := by
  obtain ⟨nr, pr, mn, av, rt, hr, ppn, al, sa, _, _, _, _, _, _, _, _, _, hcols⟩ :=
    pipeline_eq df out hf h
  exact ⟨by simp [colNames, hcols, derivedNames], by simp [derivedNames]⟩

/-- Claim C4 witness: the five derived columns on the concrete example table. -/
theorem pipeline_five_derived_columns_witness :
    colNames exampleOut = colNames exampleDf ++ derivedNames ∧ derivedNames.length = 5 :=
  pipeline_five_derived_columns exampleDf exampleOut (by decide) (by decide)

/-- Each derived cell of a successful run is a function of the same row's
input cells alone. -/
theorem pipeline_cellAt (df out : DataFrame) (hf : freshDerived df)
    (h : pipeline df = some out) (i : ℕ) :
    cellAt out "has_review" i = (cellAt df "number_of_reviews" i).bind hasReviewCell ∧
    cellAt out "price_per_night" i =
      ((cellAt df "price" i).bind
        (fun p => (cellAt df "minimum_nights" i).map (fun m => (p, m)))).bind
        (fun pm => (pricePerNightCell pm.1 pm.2).map replaceInfCell) ∧
    cellAt out "active_listing" i =
      (cellAt df "availability_365" i).bind activeListingCell ∧
    cellAt out "seasonal_availability" i =
      (cellAt df "availability_365" i).bind categorizeAvailabilityCell ∧
    cellAt out "is_entire_home" i =
      (cellAt df "room_type" i).map isEntireHomeCell := by
  have f1 : hasCol df "has_review" = false := hf _ (by simp [derivedNames])
  have f2 : hasCol df "price_per_night" = false := hf _ (by simp [derivedNames])
  have f3 : hasCol df "active_listing" = false := hf _ (by simp [derivedNames])
  have f4 : hasCol df "seasonal_availability" = false := hf _ (by simp [derivedNames])
  have f5 : hasCol df "is_entire_home" = false := hf _ (by simp [derivedNames])
  obtain ⟨nr, pr, mn, av, rt, hr, ppn, al, sa, hnr, hpr, hmn, hav, hrt, hhr, hppn, hal,
    hsa, hcols⟩ := pipeline_eq df out hf h
  have g1 : getCol out "has_review" = some hr := by
    rw [getCol_of_cols_append out df _ hcols _ f1]
    simp [getCol, List.find?_cons]
  have g2 : getCol out "price_per_night" = some (ppn.map replaceInfCell) := by
    rw [getCol_of_cols_append out df _ hcols _ f2]
    simp [getCol, List.find?_cons]
  have g3 : getCol out "active_listing" = some al := by
    rw [getCol_of_cols_append out df _ hcols _ f3]
    simp [getCol, List.find?_cons]
  have g4 : getCol out "seasonal_availability" = some sa := by
    rw [getCol_of_cols_append out df _ hcols _ f4]
    simp [getCol, List.find?_cons]
  have g5 : getCol out "is_entire_home" = some (rt.map isEntireHomeCell) := by
    rw [getCol_of_cols_append out df _ hcols _ f5]
    simp [getCol, List.find?_cons]
  refine ⟨?_, ?_, ?_, ?_, ?_⟩
  · rw [cellAt, g1, Option.some_bind, cellAt, hnr, Option.some_bind]
    exact mapM_option_getElem? hasReviewCell nr hr hhr i
  · rw [cellAt, g2, Option.some_bind, cellAt, cellAt, hpr, hmn, Option.some_bind,
      Option.some_bind]
    rw [List.getElem?_map, mapM_option_getElem? _ _ ppn hppn i, zip_getElem?,
      Option.map_bind]
    simp [Function.comp]
  · rw [cellAt, g3, Option.some_bind, cellAt, hav, Option.some_bind]
    exact mapM_option_getElem? activeListingCell av al hal i
  · rw [cellAt, g4, Option.some_bind, cellAt, hav, Option.some_bind]
    exact mapM_option_getElem? categorizeAvailabilityCell av sa hsa i
  · rw [cellAt, g5, Option.some_bind, cellAt, hrt, Option.some_bind]
    exact List.getElem?_map isEntireHomeCell rt i

/-- Claim C8: every derived field of a row is a pure function of that row's
input fields only.  If two input tables agree on the input cells of one row
(at possibly different positions, with arbitrary other contents), every
derived cell of that row is identical in the two outputs. -/
theorem pipeline_row_local (df df' out out' : DataFrame) (i j : ℕ)
    (hf : freshDerived df) (hf' : freshDerived df')
    (h : pipeline df = some out) (h' : pipeline df' = some out')
    (hagree : ∀ c ∈ inputNames, cellAt df c i = cellAt df' c j) :
    ∀ d ∈ derivedNames, cellAt out d i = cellAt out' d j := by
  obtain ⟨e1, e2, e3, e4, e5⟩ := pipeline_cellAt df out hf h i
  obtain ⟨e1', e2', e3', e4', e5'⟩ := pipeline_cellAt df' out' hf' h' j
  have a1 := hagree "number_of_reviews" (by simp [inputNames])
  have a2 := hagree "price" (by simp [inputNames])
  have a3 := hagree "minimum_nights" (by simp [inputNames])
  have a4 := hagree "availability_365" (by simp [inputNames])
  have a5 := hagree "room_type" (by simp [inputNames])
  intro d hd
  simp only [derivedNames, List.mem_cons, List.not_mem_nil, or_false] at hd
  rcases hd with rfl | rfl | rfl | rfl | rfl
  · rw [e1, e1', a1]
  · rw [e2, e2', a2, a3]
  · rw [e3, e3', a4]
  · rw [e4, e4', a4]
  · rw [e5, e5', a5]

/-- A second concrete table: two rows, whose second row carries the same input
cells as `exampleDf`'s only row, in a table with different contents, order and
row count. -/
def exampleDf2 : DataFrame :=
  ⟨[("number_of_reviews", [.int 0, .int 3]), ("price", [.int 80, .int 100]),
    ("minimum_nights", [.int (-1), .int 0]), ("availability_365", [.int 0, .int 100]),
    ("room_type", [.str "Private room", .str "Entire home/apt"])]⟩

/-- The result of the pipeline on `exampleDf2`. -/
def exampleOut2 : DataFrame :=
  ⟨[("number_of_reviews", [.int 0, .int 3]), ("price", [.int 80, .int 100]),
    ("minimum_nights", [.int (-1), .int 0]), ("availability_365", [.int 0, .int 100]),
    ("room_type", [.str "Private room", .str "Entire home/apt"]),
    ("has_review", [.int 0, .int 1]), ("price_per_night", [.nan, .nan]),
    ("active_listing", [.int 0, .int 1]),
    ("seasonal_availability", [.str "Not Available", .str "Low"]),
    ("is_entire_home", [.int 0, .int 1])]⟩

/-- Claim C8 witness: row 0 of `exampleDf` and row 1 of `exampleDf2` carry the
same input cells, and every derived cell agrees between the two outputs. -/
theorem pipeline_row_local_witness :
    cellAt exampleOut "has_review" 0 = cellAt exampleOut2 "has_review" 1 ∧
    cellAt exampleOut "price_per_night" 0 = cellAt exampleOut2 "price_per_night" 1 ∧
    cellAt exampleOut "active_listing" 0 = cellAt exampleOut2 "active_listing" 1 ∧
    cellAt exampleOut "seasonal_availability" 0 = cellAt exampleOut2 "seasonal_availability" 1 ∧
    cellAt exampleOut "is_entire_home" 0 = cellAt exampleOut2 "is_entire_home" 1 :=
  have h := pipeline_row_local exampleDf exampleDf2 exampleOut exampleOut2 0 1
    (by decide) (by decide) (by decide) (by decide) (by decide)
  ⟨h "has_review" (by simp [derivedNames]),
   h "price_per_night" (by simp [derivedNames]),
   h "active_listing" (by simp [derivedNames]),
   h "seasonal_availability" (by simp [derivedNames]),
   h "is_entire_home" (by simp [derivedNames])⟩

/-! ### Per-row claims about the derivation lambdas -/

/-- Claim C1: for every row, `price_per_night` (after the `±inf` replacement)
equals `price / minimum_nights` when `minimum_nights > 0`, is the missing
marker `nan` when `minimum_nights ≤ 0`, and any infinite quotient is also
mapped to `nan`. -/
theorem price_per_night_guarded (p : ℚ) (a m : ℤ) :
    (0 < m → (pricePerNightCell (.rat p) (.int m)).map replaceInfCell
        = some (.rat (p / (m : ℚ)))) ∧
    (0 < m → (pricePerNightCell (.int a) (.int m)).map replaceInfCell
        = some (.rat ((a : ℚ) / (m : ℚ)))) ∧
    (m ≤ 0 → (pricePerNightCell (.rat p) (.int m)).map replaceInfCell = some .nan) ∧
    (m ≤ 0 → (pricePerNightCell (.int a) (.int m)).map replaceInfCell = some .nan) ∧
    (∀ pc mc : Cell,
      (pricePerNightCell pc mc = some .inf ∨ pricePerNightCell pc mc = some .ninf) →
      (pricePerNightCell pc mc).map replaceInfCell = some .nan) := by
  refine ⟨?_, ?_, ?_, ?_, ?_⟩
  · intro hm
    simp [pricePerNightCell, cellGtZero, divCell, replaceInfCell, hm]
  · intro hm
    simp [pricePerNightCell, cellGtZero, divCell, replaceInfCell, hm]
  · intro hm
    have hm' : ¬(0 < m) := by omega
    simp [pricePerNightCell, cellGtZero, replaceInfCell, hm']
  · intro hm
    have hm' : ¬(0 < m) := by omega
    simp [pricePerNightCell, cellGtZero, replaceInfCell, hm']
  · intro pc mc h
    rcases h with h | h <;> rw [h] <;> rfl

/-- Claim C1 witness: concrete rows exercising the positive, non-positive and
infinite cases. -/
theorem price_per_night_guarded_witness :
    (pricePerNightCell (.rat 6) (.int 2)).map replaceInfCell
      = some (.rat ((6 : ℚ) / ((2 : ℤ) : ℚ))) ∧
    (pricePerNightCell (.int 7) (.int 2)).map replaceInfCell
      = some (.rat (((7 : ℤ) : ℚ) / ((2 : ℤ) : ℚ))) ∧
    (pricePerNightCell (.rat 6) (.int 0)).map replaceInfCell = some .nan ∧
    (pricePerNightCell .inf (.int 2)).map replaceInfCell = some .nan :=
  ⟨(price_per_night_guarded 6 7 2).1 (by decide),
   (price_per_night_guarded 6 7 2).2.1 (by decide),
   (price_per_night_guarded 6 7 0).2.2.1 (by decide),
   (price_per_night_guarded 6 7 2).2.2.2.2 .inf (.int 2) (Or.inl (by decide))⟩

/-- Claim C2: on `[0, 365]` the four seasonal-availability buckets hold exactly
as specified, so they partition the range exhaustively and exclusively. -/
theorem seasonal_availability_partition (x : ℤ) (h0 : 0 ≤ x) (h365 : x ≤ 365) :
    (categorize_availability x = "Not Available" ↔ x = 0) ∧
    (categorize_availability x = "Low" ↔ 0 < x ∧ x ≤ 120) ∧
    (categorize_availability x = "Medium" ↔ 120 < x ∧ x ≤ 240) ∧
    (categorize_availability x = "High" ↔ 240 < x ∧ x ≤ 365) := by
  unfold categorize_availability
  split_ifs with h1 h2 h3
  all_goals simp_all
  all_goals omega

/-- Claim C2 witness: the partition at the concrete availability 100. -/
theorem seasonal_availability_partition_witness :
    (categorize_availability 100 = "Not Available" ↔ (100 : ℤ) = 0) ∧
    (categorize_availability 100 = "Low" ↔ (0 : ℤ) < 100 ∧ (100 : ℤ) ≤ 120) ∧
    (categorize_availability 100 = "Medium" ↔ (120 : ℤ) < 100 ∧ (100 : ℤ) ≤ 240) ∧
    (categorize_availability 100 = "High" ↔ (240 : ℤ) < 100 ∧ (100 : ℤ) ≤ 365) :=
  seasonal_availability_partition 100 (by decide) (by decide)

/-- Claim C5: for every row, `has_review` is 0 or 1, and is 1 exactly when
`number_of_reviews > 0`. -/
theorem has_review_flag (n : ℤ) :
    (hasReviewCell (.int n) = some (.int 1) ∨ hasReviewCell (.int n) = some (.int 0)) ∧
    (hasReviewCell (.int n) = some (.int 1) ↔ 0 < n) ∧
    (hasReviewCell (.int n) = some (.int 0) ↔ ¬ 0 < n) := by
  unfold hasReviewCell cellGtZero
  by_cases h : 0 < n
  · simp [h]
  · simp [h]

/-- Claim C6: for every row, `active_listing` is 1 exactly when
`availability_365 > 0` and 0 otherwise. -/
theorem active_listing_flag (x : ℤ) :
    (activeListingCell (.int x) = some (.int 1) ↔ 0 < x) ∧
    (activeListingCell (.int x) = some (.int 0) ↔ x ≤ 0) := by
  unfold activeListingCell cellGtZero
  by_cases h : 0 < x
  all_goals simp [h]
  all_goals omega

/-- Claim C7: for every row, `is_entire_home` is 1 exactly when `room_type` is
the string `"Entire home/apt"`, and 0 for every other string. -/
theorem is_entire_home_flag (s : String) :
    (isEntireHomeCell (.str s) = .int 1 ↔ s = "Entire home/apt") ∧
    (isEntireHomeCell (.str s) = .int 0 ↔ s ≠ "Entire home/apt") := by
  unfold isEntireHomeCell
  by_cases h : s = "Entire home/apt" <;> simp [h]

/-- Claim C9: `categorize_availability` is total on all integers and returns
one of the four labels; negative inputs get `"Low"` (not `"Not Available"`)
and inputs above 365 get `"High"`. -/
theorem categorize_availability_total (x : ℤ) :
    (x < 0 → categorize_availability x = "Low") ∧
    (365 < x → categorize_availability x = "High") ∧
    categorize_availability x ∈ ["Not Available", "Low", "Medium", "High"] := by
  unfold categorize_availability
  refine ⟨?_, ?_, ?_⟩
  · intro hx
    rw [if_neg (by omega), if_pos (by omega)]
  · intro hx
    rw [if_neg (by omega), if_neg (by omega), if_neg (by omega)]
  · split_ifs <;> simp

/-- Claim C9 witness: a negative and an above-range input. -/
theorem categorize_availability_total_witness :
    categorize_availability (-5) = "Low" ∧ categorize_availability 400 = "High" :=
  ⟨(categorize_availability_total (-5)).1 (by decide),
   (categorize_availability_total 400).2.1 (by decide)⟩

/-- Claim C10: for every row with `availability_365 ≥ 0`, `active_listing` is 0
exactly when `seasonal_availability` is `"Not Available"`. -/
theorem active_listing_consistent_seasonal (x : ℤ) (h0 : 0 ≤ x) :
    activeListingCell (.int x) = some (.int 0) ↔
      categorizeAvailabilityCell (.int x) = some (.str "Not Available") := by
  unfold activeListingCell categorizeAvailabilityCell cellGtZero categorize_availability
  by_cases h : x = 0
  · subst h
    simp
  · have hx : 0 < x := by omega
    simp only [Option.some_bind, decide_eq_true_eq]
    simp [hx, h]
    split_ifs <;> simp

/-- Claim C10 witness: the equivalence at availability 0. -/
theorem active_listing_consistent_seasonal_witness :
    activeListingCell (.int 0) = some (.int 0) ↔
      categorizeAvailabilityCell (.int 0) = some (.str "Not Available") :=
  active_listing_consistent_seasonal 0 (by decide)

end AirbnbFeatures
